import Mathlib

/-!
Verification of `cupy/sparse/linalg/solve.py` (function `lsqr`).

The file shallowly embeds the marshaling-and-validation shim `lsqr(A, b)`:
input validation, numeric precision selection, dispatch to the native
cusolver entry point (`scsrlsvqr` / `dcsrlsvqr`), and post-processing of the
result into a 10-slot scipy-style tuple.

Modelling conventions:
- Machine floating-point values are modelled as exact rationals; the value
  carried by a buffer and the dtype tag attached to it are kept separately
  (widening a float32 value to float64 is exact, so upcasting preserves the
  rational value).
- An Euclidean norm `sqrt (sum of squares)` is represented exactly by the
  rational sum of squares it is the square root of (`L2Norm.sq`); two norms
  are equal iff their `sq` fields are equal, so no real square root is needed.
- The native routine is opaque: the environment `Env` carries an arbitrary
  oracle mapping the call arguments to the output vector and the singularity
  scalar the routine writes.  Side effects (device buffer allocation, the
  native call with its scalar arguments) are recorded in an event trace.
- Python exceptions become an error type; `lsqr` returns
  `Except SolveError LsqrRet` together with the event trace.
-/

/-- Numpy dtype character codes relevant to the shim
(`A.dtype.char` in the source). -/
inductive DTypeChar where
  | bool_
  | int8
  | uint8
  | int16
  | uint16
  | int32
  | uint32
  | int64
  | uint64
  | float16
  | float32
  | float64
  | complex64
  | complex128
deriving DecidableEq, Repr

/-- Models `numpy.find_common_type((c, 'f'), ()).char`: the numpy common
type of the dtype `c` and single precision `'f'`, following numpy's
promotion rules (integers up to 16 bits and half precision promote to
float32; 32- and 64-bit integers promote to float64; complex types absorb
float32). `numpy` is an external collaborator of the shim. -/
def find_common_type_with_f : DTypeChar → DTypeChar
  | DTypeChar.bool_ => DTypeChar.float32
  | DTypeChar.int8 => DTypeChar.float32
  | DTypeChar.uint8 => DTypeChar.float32
  | DTypeChar.int16 => DTypeChar.float32
  | DTypeChar.uint16 => DTypeChar.float32
  | DTypeChar.int32 => DTypeChar.float64
  | DTypeChar.uint32 => DTypeChar.float64
  | DTypeChar.int64 => DTypeChar.float64
  | DTypeChar.uint64 => DTypeChar.float64
  | DTypeChar.float16 => DTypeChar.float32
  | DTypeChar.float32 => DTypeChar.float32
  | DTypeChar.float64 => DTypeChar.float64
  | DTypeChar.complex64 => DTypeChar.complex64
  | DTypeChar.complex128 => DTypeChar.complex128

/-- The precision-selection step of the source (lines 46-50):
`if A.dtype.char == 'f' or A.dtype.char == 'd': dtype = A.dtype.char
 else: dtype = numpy.find_common_type((A.dtype.char, 'f'), ()).char`. -/
def castDType (c : DTypeChar) : DTypeChar :=
  if c = DTypeChar.float32 ∨ c = DTypeChar.float64 then c
  else find_common_type_with_f c

/-- `true` exactly for the dtypes that are at least single precision
(neither boolean, nor integer, nor half precision). -/
def isAtLeastSingle : DTypeChar → Bool
  | DTypeChar.float32 => true
  | DTypeChar.float64 => true
  | DTypeChar.complex64 => true
  | DTypeChar.complex128 => true
  | _ => false

/-- Compressed-row-storage sparse matrix (`cupy.sparse.csr_matrix`).
The CSR representation itself is an external collaborator of the shim;
modelled from the spec: arrays `data`, row pointers `indptr`, column
indices `indices`, shape `(rows, cols)`, and an element dtype. -/
structure CsrMatrix where
  rows : Nat
  cols : Nat
  dtype : DTypeChar
  data : List ℚ
  indptr : List Nat
  indices : List Nat
deriving DecidableEq, Repr

/-- `A.nnz`: the number of stored values. -/
def CsrMatrix.nnz (A : CsrMatrix) : Nat := A.data.length

/-- CSR matrix-vector product `A.dot(x)` (row `i` sums
`data[k] * x[indices[k]]` for `k` in `[indptr[i], indptr[i+1])`).
Modelled from the spec: the `dot` primitive belongs to the collaborating
sparse-matrix library, not to the shim. -/
def CsrMatrix.dot (A : CsrMatrix) (v : List ℚ) : List ℚ :=
  (List.range A.rows).map fun i =>
    ((List.range (A.indptr.getD (i + 1) 0 - A.indptr.getD i 0)).map fun t =>
      A.data.getD (A.indptr.getD i 0 + t) 0 *
        v.getD (A.indices.getD (A.indptr.getD i 0 + t) 0) 0).sum

/-- A dense two-dimensional array, row major, as it would be handed to the
conversion constructor `sparse.csr_matrix(A)`. -/
structure DenseMat where
  rows : Nat
  cols : Nat
  dtype : DTypeChar
  vals : List ℚ
deriving DecidableEq, Repr

/-- The nonzero entries `(column, value)` of row `i` of a dense matrix. -/
def denseRowNZ (cols : Nat) (vals : List ℚ) (i : Nat) : List (Nat × ℚ) :=
  ((List.range cols).map fun j => (j, vals.getD (i * cols + j) 0)).filter
    fun p => p.2 ≠ 0

/-- Conversion constructor `sparse.csr_matrix(D)` for a dense matrix.
Modelled from the spec: the conversion belongs to the collaborating
sparse-matrix library; it keeps the shape and the element dtype and stores
the nonzero entries row by row. -/
def denseToCsr (D : DenseMat) : CsrMatrix :=
  { rows := D.rows
    cols := D.cols
    dtype := D.dtype
    data := ((List.range D.rows).map (denseRowNZ D.cols D.vals)).flatten.map Prod.snd
    indptr := (List.range (D.rows + 1)).map fun i =>
      ((List.range i).map fun r => (denseRowNZ D.cols D.vals r).length).sum
    indices := ((List.range D.rows).map (denseRowNZ D.cols D.vals)).flatten.map Prod.fst }

/-- The matrix argument `A` of `lsqr`: either already a CSR sparse matrix
(`sparse.isspmatrix_csr(A)` true) or a dense array that the shim converts. -/
inductive MatrixInput where
  | csr (A : CsrMatrix)
  | dense (D : DenseMat)
deriving DecidableEq, Repr

/-- Lines 37-38 of the source:
`if not sparse.isspmatrix_csr(A): A = sparse.csr_matrix(A)`. -/
def toCsr : MatrixInput → CsrMatrix
  | MatrixInput.csr A => A
  | MatrixInput.dense D => denseToCsr D

/-- The vector argument `b`: an n-dimensional array that may live on the
device (a `cupy.ndarray`, `onDevice = true`) or on the host (a numpy
array, `onDevice = false`). -/
structure NdArray where
  onDevice : Bool
  shape : List Nat
  dtype : DTypeChar
  values : List ℚ
deriving DecidableEq, Repr

/-- An exact representation of the Euclidean norm `Real.sqrt sq`:
two norms are equal iff the rational squares are. -/
structure L2Norm where
  sq : ℚ
deriving DecidableEq, Repr

/-- `cupy.linalg.norm(v)` (an external collaborator primitive), represented
exactly by the sum of the squares of the entries. -/
def l2norm (v : List ℚ) : L2Norm := ⟨(v.map fun t => t * t).sum⟩

/-- Elementwise `u - v` (`b - A.dot(x)` in the source). -/
def vecSub (u v : List ℚ) : List ℚ := List.zipWith (fun a b => a - b) u v

/-- The arguments the shim passes to the native entry point
(lines 63-66): dimension `m`, nonzero count `nnz`, the three CSR buffers,
the right-hand-side buffer, the tolerance and the reorder flag.  The opaque
handle and descriptor carry no information in the model and are omitted;
raw device pointers are represented by the arrays they point to. -/
structure NativeCallArgs where
  m : Nat
  nnz : Nat
  data : List ℚ
  indptr : List Nat
  indices : List Nat
  b : List ℚ
  tol : ℚ
  reorder : Nat
deriving DecidableEq, Repr

/-- Which precision-specialised native entry point is invoked:
`cusolver.scsrlsvqr` (single) or `cusolver.dcsrlsvqr` (double). -/
inductive Variant where
  | single
  | double
deriving DecidableEq, Repr

/-- Observable side effects of a call, in program order:
device buffer allocation (`cupy.empty`), host scalar allocation
(`numpy.empty`), and the native solver call. -/
inductive Event where
  | allocDevice (len : Nat) (dtype : DTypeChar)
  | allocHost (len : Nat)
  | nativeCall (v : Variant) (args : NativeCallArgs)
deriving DecidableEq, Repr

/-- The runtime environment: the `cuda.cusolver_enabled` capability flag and
the opaque native routine, an oracle that maps the call arguments to the
output vector `x` and the singularity scalar it writes. -/
structure Env where
  cusolverEnabled : Bool
  csrlsvqr : Variant → NativeCallArgs → List ℚ × Int

/-- The Python exceptions `lsqr` can raise.  `runtimeError` and
`valueError` carry the exact message strings of the source;
`shapeMismatchError` and `arrayTypeError` are modelled from the spec: they
are raised by the validation helpers `util._assert_nd_squareness` and
`util._assert_cupy_array` of the collaborating array runtime, which are not
part of the source fragment. -/
inductive SolveError where
  | runtimeError (msg : String)
  | shapeMismatchError (msg : String)
  | arrayTypeError (msg : String)
  | valueError (msg : String)
deriving DecidableEq, Repr

/-- One slot of the returned tuple: either the solution vector with its
dtype tag, or a norm scalar. -/
inductive RetSlot where
  | vec (dtype : DTypeChar) (values : List ℚ)
  | norm (n : L2Norm)
deriving DecidableEq, Repr

/-- The scipy-style return tuple: a fixed list of optional slots, `none`
standing for the Python `None` placeholders. -/
abbrev LsqrRet : Type := List (Option RetSlot)

/-- Shallow embedding of `lsqr(A, b)` (solve.py, lines 14-72), returning
the result or the raised exception, together with the trace of observable
side effects. -/
def lsqr (env : Env) (Ain : MatrixInput) (b : NdArray) :
    Except SolveError LsqrRet × List Event :=
  if env.cusolverEnabled = false then
    (Except.error (SolveError.runtimeError
      "Current cupy only supports cusolver in CUDA 8.0"), [])
  else
    let A := toCsr Ain
    if A.rows ≠ A.cols then
      (Except.error (SolveError.shapeMismatchError
        "last 2 dimensions of the array must be square"), [])
    else if b.onDevice = false then
      (Except.error (SolveError.arrayTypeError
        "CuPy array is required as an argument"), [])
    else
      let m := A.rows
      if b.shape.length ≠ 1 ∨ b.shape.headD 0 ≠ m then
        (Except.error (SolveError.valueError
          "b must be 1-d array whose size is same as A"), [])
      else
        let dtype := castDType A.dtype
        let nnz := A.nnz
        let tol : ℚ := 1
        let reorder : Nat := 1
        let variant :=
          if dtype = DTypeChar.float32 then Variant.single else Variant.double
        let args : NativeCallArgs :=
          ⟨m, nnz, A.data, A.indptr, A.indices, b.values, tol, reorder⟩
        let x := (env.csrlsvqr variant args).1
        let r1norm := l2norm (vecSub b.values (A.dot x))
        let xnorm := l2norm x
        (Except.ok [some (RetSlot.vec DTypeChar.float64 x), none, none,
          some (RetSlot.norm r1norm), none, none, none, none,
          some (RetSlot.norm xnorm), none],
         [Event.allocDevice m dtype, Event.allocHost 1,
          Event.nativeCall variant args])

/-- `true` iff the call returned normally (no exception). -/
def exceptIsOk : Except SolveError LsqrRet → Bool
  | Except.ok _ => true
  | Except.error _ => false

/-- Number of populated (non-`None`) slots of a returned tuple
(`0` when the call raised). -/
def populatedCount : Except SolveError LsqrRet → Nat
  | Except.ok r => (r.filterMap id).length
  | Except.error _ => 0

instance : DecidableEq (Except SolveError LsqrRet) := fun x y =>
  match x, y with
  | Except.ok a, Except.ok b =>
    if h : a = b then Decidable.isTrue (by rw [h])
    else Decidable.isFalse (fun hc => h (Except.ok.inj hc))
  | Except.error a, Except.error b =>
    if h : a = b then Decidable.isTrue (by rw [h])
    else Decidable.isFalse (fun hc => h (Except.error.inj hc))
  | Except.ok _, Except.error _ => Decidable.isFalse (fun hc => Except.noConfusion hc)
  | Except.error _, Except.ok _ => Decidable.isFalse (fun hc => Except.noConfusion hc)

/-! ### Concrete fixtures -/

/-- A runtime environment with cusolver enabled whose native oracle returns
the zero vector and singularity scalar `-1`. -/
def envC : Env := ⟨true, fun _ a => (List.replicate a.m 0, -1)⟩

/-- A runtime environment whose build lacks cusolver support. -/
def envOff : Env := ⟨false, fun _ a => (List.replicate a.m 0, -1)⟩

/-- The spec's well-conditioned example matrix `[[4,1],[1,3]]` in CSR form. -/
def Ac : CsrMatrix :=
  ⟨2, 2, DTypeChar.float64, [4, 1, 1, 3], [0, 2, 4], [0, 1, 0, 1]⟩

/-- The matrix `[[4,1],[1,3]]` with 32-bit integer elements. -/
def Aint : CsrMatrix :=
  ⟨2, 2, DTypeChar.int32, [4, 1, 1, 3], [0, 2, 4], [0, 1, 0, 1]⟩

/-- The matrix `[[4,1],[1,3]]` with single-precision complex elements. -/
def Acplx : CsrMatrix :=
  ⟨2, 2, DTypeChar.complex64, [4, 1, 1, 3], [0, 2, 4], [0, 1, 0, 1]⟩

/-- A non-square CSR matrix of shape `(2, 3)`. -/
def AnonSq : CsrMatrix := ⟨2, 3, DTypeChar.float64, [1], [0, 1, 1], [0]⟩

/-- The singular matrix `[[1,1],[1,1]]` in CSR form. -/
def Asing : CsrMatrix :=
  ⟨2, 2, DTypeChar.float64, [1, 1, 1, 1], [0, 2, 4], [0, 1, 0, 1]⟩

/-- Device-resident right-hand side `[1, 2]`. -/
def bc : NdArray := ⟨true, [2], DTypeChar.float64, [1, 2]⟩

/-- Device-resident vector `[1, 2, 3]`, whose length 3 differs from 2. -/
def bBad : NdArray := ⟨true, [3], DTypeChar.float64, [1, 2, 3]⟩

/-- Host-resident (numpy) vector `[1, 2]` of the correct length 2. -/
def bHost : NdArray := ⟨false, [2], DTypeChar.float64, [1, 2]⟩

/-- Device-resident right-hand side `[1, 1]`. -/
def bSing : NdArray := ⟨true, [2], DTypeChar.float64, [1, 1]⟩

/-- The native-call arguments produced for `Ac` (equally for `Acplx`, whose
buffers coincide) with right-hand side `bc`. -/
def argsC : NativeCallArgs :=
  ⟨2, 4, [4, 1, 1, 3], [0, 2, 4], [0, 1, 0, 1], [1, 2], 1, 1⟩

/-- The native-call arguments produced for `Asing` with `bSing`. -/
def argsSing : NativeCallArgs :=
  ⟨2, 4, [1, 1, 1, 1], [0, 2, 4], [0, 1, 0, 1], [1, 1], 1, 1⟩

/-- The result tuple of `lsqr envC (MatrixInput.csr Ac) bc`. -/
def retC : LsqrRet :=
  [some (RetSlot.vec DTypeChar.float64 [0, 0]), none, none,
   some (RetSlot.norm ⟨5⟩), none, none, none, none,
   some (RetSlot.norm ⟨0⟩), none]

/-- The event trace of `lsqr envC (MatrixInput.csr Ac) bc`. -/
def trC : List Event :=
  [Event.allocDevice 2 DTypeChar.float64, Event.allocHost 1,
   Event.nativeCall Variant.double argsC]

/-- An environment with cusolver enabled whose oracle writes the
singularity scalar `0` (and the zero solution vector). -/
def env9a : Env := ⟨true, fun _ a => (List.replicate a.m 0, 0)⟩

/-- An environment with cusolver enabled whose oracle writes the
singularity scalar `-1` (and the zero solution vector). -/
def env9b : Env := ⟨true, fun _ a => (List.replicate a.m 0, -1)⟩

/-! ### Helper lemmas -/

/-- The precision-selection step never picks a boolean, integer or
half-precision dtype. -/
theorem isAtLeastSingle_castDType (c : DTypeChar) :
    isAtLeastSingle (castDType c) = true := by
  cases c <;> rfl

/-- The event trace of a call is either empty (when an exception was
raised) or records, in program order, the device allocation of `x`, the
host allocation of the singularity scalar, and the native call. -/
theorem lsqr_trace_shape (env : Env) (Ain : MatrixInput) (b : NdArray) :
    (lsqr env Ain b).2 = [] ∨
    (lsqr env Ain b).2 =
      [Event.allocDevice (toCsr Ain).rows (castDType (toCsr Ain).dtype),
       Event.allocHost 1,
       Event.nativeCall
         (if castDType (toCsr Ain).dtype = DTypeChar.float32 then
           Variant.single else Variant.double)
         ⟨(toCsr Ain).rows, (toCsr Ain).nnz, (toCsr Ain).data,
          (toCsr Ain).indptr, (toCsr Ain).indices, b.values, 1, 1⟩] := by
  simp only [lsqr]
  split
  · exact Or.inl rfl
  · split
    · exact Or.inl rfl
    · split
      · exact Or.inl rfl
      · split
        · exact Or.inl rfl
        · exact Or.inr rfl

/-- Every successful call returns the literal 10-slot tuple built from the
native routine's output vector `x`: `x` upcast to float64 in slot 0, the
residual norm of `b - A.dot(x)` in slot 3 and the norm of `x` in slot 8. -/
theorem lsqr_ok_ret (env : Env) (Ain : MatrixInput) (b : NdArray)
    (ret : LsqrRet) (tr : List Event)
    (h : lsqr env Ain b = (Except.ok ret, tr)) :
    ∃ x, ret = [some (RetSlot.vec DTypeChar.float64 x), none, none,
      some (RetSlot.norm (l2norm (vecSub b.values ((toCsr Ain).dot x)))),
      none, none, none, none, some (RetSlot.norm (l2norm x)), none] := by
  simp only [lsqr] at h
  split at h
  · simp at h
  · split at h
    · simp at h
    · split at h
      · simp at h
      · split at h
        · simp at h
        · rw [Prod.mk.injEq] at h
          exact ⟨_, (Except.ok.inj h.1).symm⟩

/-- Concrete evaluation: the call on `Ac`, `bc` in the environment `envC`
succeeds with result tuple `retC` and event trace `trC`. -/
theorem lsqr_Ac_eval : lsqr envC (MatrixInput.csr Ac) bc = (Except.ok retC, trC) := by
  norm_num [lsqr, envC, Ac, bc, toCsr, CsrMatrix.nnz, CsrMatrix.dot, l2norm,
    vecSub, castDType, retC, trC, argsC, List.range_succ]
  exact ⟨rfl, fun h => absurd h (by decide)⟩

/-- Concrete evaluation: in every cusolver-enabled environment the call on
the singular system `Asing`, `bSing` succeeds, with a result built from the
oracle's output vector alone and the trace ending in the native call. -/
theorem lsqr_Asing_eval (e : Env) (hE : e.cusolverEnabled = true) :
    lsqr e (MatrixInput.csr Asing) bSing =
    (Except.ok [some (RetSlot.vec DTypeChar.float64
        (e.csrlsvqr Variant.double argsSing).1), none, none,
      some (RetSlot.norm (l2norm (vecSub bSing.values
        (Asing.dot (e.csrlsvqr Variant.double argsSing).1)))),
      none, none, none, none,
      some (RetSlot.norm (l2norm (e.csrlsvqr Variant.double argsSing).1)),
      none],
     [Event.allocDevice 2 DTypeChar.float64, Event.allocHost 1,
      Event.nativeCall Variant.double argsSing]) := by
  simp only [lsqr]
  rw [if_neg (by simp [hE]), if_neg (by decide), if_neg (by decide),
    if_neg (by decide)]
  rfl

/-! ### Claims -/

/-- C2: whenever cusolver support is absent, `lsqr` raises the
unsupported-operation error (`RuntimeError` with the source's message) for
every input `A` and `b`, with an empty event trace: no buffer allocation
and no other device work is attempted. -/
theorem lsqr_C2_disabled (env : Env) (Ain : MatrixInput) (b : NdArray)
    (h : env.cusolverEnabled = false) :
    lsqr env Ain b = (Except.error (SolveError.runtimeError
      "Current cupy only supports cusolver in CUDA 8.0"), []) := by
  simp only [lsqr]
  rw [if_pos h]

/-- C2 witness: the concrete cusolver-less environment fails this way on
the valid inputs `Ac`, `bc`. -/
theorem lsqr_C2_witness :
    lsqr envOff (MatrixInput.csr Ac) bc = (Except.error (SolveError.runtimeError
      "Current cupy only supports cusolver in CUDA 8.0"), []) :=
  lsqr_C2_disabled envOff (MatrixInput.csr Ac) bc rfl

/-- C3: with cusolver enabled, a square `A` and a device-resident `b`, any
`b` that is not one-dimensional or whose length differs from `A`'s row
count makes `lsqr` raise the `ValueError` whose message states that `b`
must be a 1-d array of the same size as `A`; the event trace is empty, so
no native call is made. -/
theorem lsqr_C3_bad_b (env : Env) (Ain : MatrixInput) (b : NdArray)
    (h1 : env.cusolverEnabled = true)
    (h2 : (toCsr Ain).rows = (toCsr Ain).cols)
    (h3 : b.onDevice = true)
    (h4 : b.shape.length ≠ 1 ∨ b.shape.headD 0 ≠ (toCsr Ain).rows) :
    lsqr env Ain b = (Except.error (SolveError.valueError
      "b must be 1-d array whose size is same as A"), []) := by
  simp only [lsqr]
  rw [if_neg (by simp [h1]), if_neg (not_not_intro h2),
    if_neg (by simp [h3]), if_pos h4]

/-- C3 witness: the device vector `[1,2,3]` of length 3 against the 2-by-2
matrix `Ac` fails with the `ValueError` and an empty trace. -/
theorem lsqr_C3_witness :
    lsqr envC (MatrixInput.csr Ac) bBad = (Except.error (SolveError.valueError
      "b must be 1-d array whose size is same as A"), []) :=
  lsqr_C3_bad_b envC (MatrixInput.csr Ac) bBad rfl rfl rfl (Or.inr (by decide))

/-- C8: with cusolver enabled, a non-square `A` makes `lsqr` raise the
shape-mismatch error, with an empty event trace: the failure happens before
any native call (and before any allocation). -/
theorem lsqr_C8_nonsquare (env : Env) (Ain : MatrixInput) (b : NdArray)
    (h1 : env.cusolverEnabled = true)
    (h2 : (toCsr Ain).rows ≠ (toCsr Ain).cols) :
    lsqr env Ain b = (Except.error (SolveError.shapeMismatchError
      "last 2 dimensions of the array must be square"), []) := by
  simp only [lsqr]
  rw [if_neg (by simp [h1]), if_pos h2]

/-- C8 witness: the 2-by-3 matrix `AnonSq` fails with the shape-mismatch
error and an empty trace, even with a valid `b`. -/
theorem lsqr_C8_witness :
    lsqr envC (MatrixInput.csr AnonSq) bc =
      (Except.error (SolveError.shapeMismatchError
        "last 2 dimensions of the array must be square"), []) :=
  lsqr_C8_nonsquare envC (MatrixInput.csr AnonSq) bc rfl (by decide)

/-- C10: with cusolver enabled and a square `A`, any host-resident (non
cupy) `b` is rejected with the array-type error and an empty event trace —
for every shape of `b`, so the type check precedes the length check and no
native call is made. -/
theorem lsqr_C10_host_b (env : Env) (Ain : MatrixInput) (b : NdArray)
    (h1 : env.cusolverEnabled = true)
    (h2 : (toCsr Ain).rows = (toCsr Ain).cols)
    (h3 : b.onDevice = false) :
    lsqr env Ain b = (Except.error (SolveError.arrayTypeError
      "CuPy array is required as an argument"), []) := by
  simp only [lsqr]
  rw [if_neg (by simp [h1]), if_neg (not_not_intro h2), if_pos h3]

/-- C10 witness: the host vector `[1,2]`, although one-dimensional and of
the correct length 2, is rejected with the array-type error. -/
theorem lsqr_C10_witness :
    lsqr envC (MatrixInput.csr Ac) bHost =
      (Except.error (SolveError.arrayTypeError
        "CuPy array is required as an argument"), []) :=
  lsqr_C10_host_b envC (MatrixInput.csr Ac) bHost rfl rfl rfl

/-- C4: whenever a device buffer for `x` is allocated, its dtype is the
chosen working precision: `A`'s dtype unchanged when that is float32 or
float64, and otherwise the numpy common type of `A`'s dtype with single
precision — never a boolean, integer or half-precision dtype, always at
least single precision. -/
theorem lsqr_C4_precision (env : Env) (Ain : MatrixInput) (b : NdArray)
    (len : Nat) (dt : DTypeChar)
    (h : Event.allocDevice len dt ∈ (lsqr env Ain b).2) :
    dt = castDType (toCsr Ain).dtype ∧
    ((toCsr Ain).dtype = DTypeChar.float32 ∨ (toCsr Ain).dtype = DTypeChar.float64 →
      dt = (toCsr Ain).dtype) ∧
    (¬ ((toCsr Ain).dtype = DTypeChar.float32 ∨ (toCsr Ain).dtype = DTypeChar.float64) →
      dt = find_common_type_with_f (toCsr Ain).dtype) ∧
    isAtLeastSingle dt = true := by
  rcases lsqr_trace_shape env Ain b with h0 | h0 <;> rw [h0] at h
  · simp at h
  · simp only [List.mem_cons, List.not_mem_nil, or_false] at h
    rcases h with h | h | h
    · injection h with hlen hdt
      subst hdt
      refine ⟨rfl, ?_, ?_, isAtLeastSingle_castDType _⟩
      · intro hf
        simp only [castDType]
        rw [if_pos hf]
      · intro hn
        simp only [castDType]
        rw [if_neg hn]
    · exact absurd h (by simp)
    · exact absurd h (by simp)

/-- C4 witness: for the int32 matrix `Aint` the allocated buffer has dtype
float64 (the numpy common type of int32 and float32), which satisfies all
four conjuncts. -/
theorem lsqr_C4_witness :
    DTypeChar.float64 = castDType (toCsr (MatrixInput.csr Aint)).dtype ∧
    ((toCsr (MatrixInput.csr Aint)).dtype = DTypeChar.float32 ∨
        (toCsr (MatrixInput.csr Aint)).dtype = DTypeChar.float64 →
      DTypeChar.float64 = (toCsr (MatrixInput.csr Aint)).dtype) ∧
    (¬ ((toCsr (MatrixInput.csr Aint)).dtype = DTypeChar.float32 ∨
        (toCsr (MatrixInput.csr Aint)).dtype = DTypeChar.float64) →
      DTypeChar.float64 = find_common_type_with_f (toCsr (MatrixInput.csr Aint)).dtype) ∧
    isAtLeastSingle DTypeChar.float64 = true :=
  lsqr_C4_precision envC (MatrixInput.csr Aint) bc 2 DTypeChar.float64 (by decide)

/-- C5 counterexample: for the complex64 matrix `Acplx` the call reaches
dispatch and invokes the double-precision entry point, while the chosen
working precision is complex64, not float64 — so "the double-precision
entry point is called if and only if the chosen precision is double
precision" is false on the code. -/
theorem lsqr_C5_counterexample :
    Event.nativeCall Variant.double argsC ∈ (lsqr envC (MatrixInput.csr Acplx) bc).2 ∧
    castDType (toCsr (MatrixInput.csr Acplx)).dtype ≠ DTypeChar.float64 := by
  decide

/-- C5 (amended): for every call that reaches dispatch, the
single-precision entry point is invoked if and only if the chosen
precision is single precision; otherwise — for double precision and for
every other chosen dtype (e.g. complex) — the double-precision entry point
is invoked. -/
theorem lsqr_C5_dispatch (env : Env) (Ain : MatrixInput) (b : NdArray)
    (v : Variant) (args : NativeCallArgs)
    (h : Event.nativeCall v args ∈ (lsqr env Ain b).2) :
    (v = Variant.single ↔ castDType (toCsr Ain).dtype = DTypeChar.float32) ∧
    (v = Variant.double ↔ castDType (toCsr Ain).dtype ≠ DTypeChar.float32) := by
  rcases lsqr_trace_shape env Ain b with h0 | h0 <;> rw [h0] at h
  · simp at h
  · simp only [List.mem_cons, List.not_mem_nil, or_false] at h
    rcases h with h | h | h
    · exact absurd h (by simp)
    · exact absurd h (by simp)
    · injection h with hv hargs
      subst hv
      by_cases hdt : castDType (toCsr Ain).dtype = DTypeChar.float32 <;>
        simp [hdt]

/-- C5 witness: for the complex64 matrix `Acplx` the double entry point is
invoked and the chosen precision (complex64) is indeed not single. -/
theorem lsqr_C5_witness :
    (Variant.double = Variant.single ↔
      castDType (toCsr (MatrixInput.csr Acplx)).dtype = DTypeChar.float32) ∧
    (Variant.double = Variant.double ↔
      castDType (toCsr (MatrixInput.csr Acplx)).dtype ≠ DTypeChar.float32) :=
  lsqr_C5_dispatch envC (MatrixInput.csr Acplx) bc Variant.double argsC (by decide)

/-- C6: every native call carries the tolerance exactly 1 and the reorder
flag exactly 1, independently of the inputs `A` and `b`. -/
theorem lsqr_C6_fixed_tol_reorder (env : Env) (Ain : MatrixInput) (b : NdArray)
    (v : Variant) (args : NativeCallArgs)
    (h : Event.nativeCall v args ∈ (lsqr env Ain b).2) :
    args.tol = 1 ∧ args.reorder = 1 := by
  rcases lsqr_trace_shape env Ain b with h0 | h0 <;> rw [h0] at h
  · simp at h
  · simp only [List.mem_cons, List.not_mem_nil, or_false] at h
    rcases h with h | h | h
    · exact absurd h (by simp)
    · exact absurd h (by simp)
    · injection h with hv hargs
      subst hargs
      exact ⟨rfl, rfl⟩

/-- C6 witness: the concrete native call for `Ac`, `bc` carries tolerance 1
and reorder flag 1. -/
theorem lsqr_C6_witness : argsC.tol = 1 ∧ argsC.reorder = 1 :=
  lsqr_C6_fixed_tol_reorder envC (MatrixInput.csr Ac) bc Variant.double argsC
    (by decide)

/-- C1 counterexample: a concrete successful call whose returned tuple has
exactly 3 populated slots — not 4 as claimed. -/
theorem lsqr_C1_counterexample :
    exceptIsOk (lsqr envC (MatrixInput.csr Ac) bc).1 = true ∧
    populatedCount (lsqr envC (MatrixInput.csr Ac) bc).1 = 3 ∧
    (3 : Nat) ≠ 4 := by
  decide

/-- C1 (amended): every successful call returns a tuple of exactly 10
slots of which exactly 3 are populated — the solution `x` in slot 0, the
residual norm in slot 3 and the solution norm in slot 8 — and every
remaining slot is the `None` placeholder. -/
theorem lsqr_C1_ret_shape (env : Env) (Ain : MatrixInput) (b : NdArray)
    (ret : LsqrRet) (tr : List Event)
    (h : lsqr env Ain b = (Except.ok ret, tr)) :
    ret.length = 10 ∧ (ret.filterMap id).length = 3 ∧
      ∃ x n1 n2, ret = [some (RetSlot.vec DTypeChar.float64 x), none, none,
        some (RetSlot.norm n1), none, none, none, none,
        some (RetSlot.norm n2), none] := by
  obtain ⟨x, hx⟩ := lsqr_ok_ret env Ain b ret tr h
  subst hx
  exact ⟨rfl, rfl, x, _, _, rfl⟩

/-- C1 witness: the concrete result tuple `retC` of the call on `Ac`, `bc`
has 10 slots, 3 of them populated, in the stated shape. -/
theorem lsqr_C1_witness :
    retC.length = 10 ∧ (retC.filterMap id).length = 3 ∧
      ∃ x n1 n2, retC = [some (RetSlot.vec DTypeChar.float64 x), none, none,
        some (RetSlot.norm n1), none, none, none, none,
        some (RetSlot.norm n2), none] :=
  lsqr_C1_ret_shape envC (MatrixInput.csr Ac) bc retC trC lsqr_Ac_eval

/-- C7: every successful call returns in slot 0 the solution vector tagged
float64 (upcast to double precision regardless of the solve precision), in
slot 3 the residual norm of `b - A.dot(x)` computed with that returned
vector, and in slot 8 the norm of that vector. -/
theorem lsqr_C7_postprocessing (env : Env) (Ain : MatrixInput) (b : NdArray)
    (ret : LsqrRet) (tr : List Event)
    (h : lsqr env Ain b = (Except.ok ret, tr)) :
    ∃ x, ret.getD 0 none = some (RetSlot.vec DTypeChar.float64 x) ∧
      ret.getD 3 none =
        some (RetSlot.norm (l2norm (vecSub b.values ((toCsr Ain).dot x)))) ∧
      ret.getD 8 none = some (RetSlot.norm (l2norm x)) := by
  obtain ⟨x, hx⟩ := lsqr_ok_ret env Ain b ret tr h
  subst hx
  exact ⟨x, rfl, rfl, rfl⟩

/-- C7 witness: for the concrete call on `Ac`, `bc` the returned tuple
`retC` carries a float64 solution in slot 0, the residual norm of
`bc - Ac.dot x` in slot 3 and the norm of `x` in slot 8. -/
theorem lsqr_C7_witness :
    ∃ x, retC.getD 0 none = some (RetSlot.vec DTypeChar.float64 x) ∧
      retC.getD 3 none =
        some (RetSlot.norm (l2norm (vecSub bc.values
          ((toCsr (MatrixInput.csr Ac)).dot x)))) ∧
      retC.getD 8 none = some (RetSlot.norm (l2norm x)) :=
  lsqr_C7_postprocessing envC (MatrixInput.csr Ac) bc retC trC lsqr_Ac_eval

/-- C9 counterexample: on the singular system `Asing`, `bSing`, two
environments whose native oracles write different singularity scalars
(0 and -1) return literally identical results — the flag is discarded by
the shim and is not observable in the result, contrary to the claim. -/
theorem lsqr_C9_counterexample :
    (env9a.csrlsvqr Variant.double argsSing).2 = 0 ∧
    (env9b.csrlsvqr Variant.double argsSing).2 = -1 ∧
    exceptIsOk (lsqr env9a (MatrixInput.csr Asing) bSing).1 = true ∧
    lsqr env9a (MatrixInput.csr Asing) bSing =
      lsqr env9b (MatrixInput.csr Asing) bSing := by
  refine ⟨rfl, rfl, ?_, ?_⟩
  · rw [lsqr_Asing_eval env9a rfl]
    rfl
  · rw [lsqr_Asing_eval env9a rfl, lsqr_Asing_eval env9b rfl]
    rfl

/-- C9 (amended): for the singular matrix `[[1,1],[1,1]]` with
`b = [1,1]`, `lsqr` returns normally in every cusolver-enabled environment
(the native call is assumed to succeed, as the oracle is total), and the
result does not depend on the singularity scalar the native routine
writes: environments whose oracles agree on the output vector alone
produce identical results, so the flag is not observable in the result. -/
theorem lsqr_C9_singular (env env' : Env)
    (h1 : env.cusolverEnabled = true) (h2 : env'.cusolverEnabled = true)
    (h3 : ∀ v a, (env.csrlsvqr v a).1 = (env'.csrlsvqr v a).1) :
    exceptIsOk (lsqr env (MatrixInput.csr Asing) bSing).1 = true ∧
    lsqr env (MatrixInput.csr Asing) bSing =
      lsqr env' (MatrixInput.csr Asing) bSing := by
  refine ⟨?_, ?_⟩
  · rw [lsqr_Asing_eval env h1]
    rfl
  · rw [lsqr_Asing_eval env h1, lsqr_Asing_eval env' h2]
    simp only [h3]

/-- C9 witness: the amended statement instantiated at the two concrete
environments `env9a`, `env9b`, whose oracles agree on the output vector. -/
theorem lsqr_C9_witness :
    exceptIsOk (lsqr env9a (MatrixInput.csr Asing) bSing).1 = true ∧
    lsqr env9a (MatrixInput.csr Asing) bSing =
      lsqr env9b (MatrixInput.csr Asing) bSing :=
  lsqr_C9_singular env9a env9b rfl rfl (fun _ _ => rfl)
